import Mathlib

/-!
Verification of the question-selection and scoring core of the
`tgeQuizFinal` quiz application (`src/QuizTGEapp.py`).

The embedding follows the Python source:
* `Question` mirrors the `@dataclass Question` (lines 42-62).
* `load_questions` / `load_questions_trace` model
  `DatabaseManager.load_questions` (lines 76-93): the sqlite3 interaction
  is abstracted into a `DbOutcome` (connect fails, the query fails after a
  successful connect, or the query succeeds with a list of rows), and the
  trace records whether the connection was opened and whether `conn.close()`
  was reached on that path.
* `prepare_questions` models `QuestionManager.prepare_questions`
  (lines 102-119).  The two `random.shuffle` calls and the final shuffle are
  modelled by quantifying theorems over permutations of the pools and of the
  selected list; `int(total_questions * 0.6)` is modelled exactly as
  truncated division `(3 * total) tdiv 5`, which agrees with the IEEE-754
  double computation for every `|total| < 2^50`; Python's slice
  `xs[:k]` (including negative `k`) is `pySliceTo`.
* `evaluate_performance` models `PerformanceEvaluator.evaluate_performance`
  (lines 325-340); IEEE-754 double arithmetic is modelled by exact rational
  arithmetic, and the `ZeroDivisionError` raised when `total_questions = 0`
  is modelled by returning `none`.
* `QuizState` with `answer_question`, `next_question`, `show_question`,
  `finish_quiz` models the mutable session state of `QuizApplication`
  (`current_index`, `correct_answers`, `is_quiz_active`,
  `current_correct_answer`) and its methods `_answer_question`,
  `_next_question`, `_show_question`, `_finish_quiz` (lines 494-558),
  with the GUI dialogs dropped.
-/

namespace QuizTGE

/-- Mirrors the Python `Question` dataclass: id, display number, statement,
four alternatives, source citation, and the correct-option label
(`gabarito`). -/
structure Question where
  id : Int
  numero : Int
  enunciado : String
  alternativa_a : String
  alternativa_b : String
  alternativa_c : String
  alternativa_d : String
  fonte : String
  gabarito : String
deriving DecidableEq, Repr

/-- Mirrors the Python `PerformanceLevel` enum. -/
inductive PerformanceLevel where
  | excellent
  | good
  | needs_improvement
deriving DecidableEq, Repr

/-- `Config.EXCELLENT_THRESHOLD = 70`. -/
def EXCELLENT_THRESHOLD : Rat := 70

/-- `Config.GOOD_THRESHOLD = 50`. -/
def GOOD_THRESHOLD : Rat := 50

/-- Abstract outcome of the sqlite3 interaction inside
`DatabaseManager.load_questions`: `sqlite3.connect` may raise, the
`execute`/`fetchall` step may raise after a successful connect, or the
query succeeds and yields the rows (already converted to `Question`
records, as `[Question(*row) for row in rows]` does). -/
inductive DbOutcome where
  | connect_failed (msg : String)
  | query_failed (msg : String)
  | success (rows : List Question)
deriving DecidableEq, Repr

/-- Resource trace of one `load_questions` call: whether the sqlite3
connection was opened during the call, whether `conn.close()` ran before
the call returned, and the returned list. -/
structure LoadTrace where
  connection_opened : Bool
  connection_closed : Bool
  result : List Question
deriving DecidableEq, Repr

/-- Models `DatabaseManager.load_questions` (lines 76-93).  The body is
`try: connect; execute; fetchall; close; return rows` with
`except sqlite3.Error: showerror; return []`.  If `connect` raises, no
connection was opened.  If `execute`/`fetchall` raises after a successful
connect, control jumps to the `except` branch and the `conn.close()` call
on line 88 is skipped — there is no `finally` and no context manager — so
the connection stays open when the call returns `[]`.  Only on the success
path is `conn.close()` reached. -/
def load_questions_trace : DbOutcome → LoadTrace
  | .connect_failed _ => ⟨false, false, []⟩
  | .query_failed _ => ⟨true, false, []⟩
  | .success rows => ⟨true, true, rows⟩

/-- The list returned by `DatabaseManager.load_questions`. -/
def load_questions (o : DbOutcome) : List Question :=
  (load_questions_trace o).result

/-- Python's slice `xs[:k]` for an arbitrary integer `k`: for `k ≥ 0` it
keeps the first `min k (len xs)` elements; for `k < 0` it keeps the first
`max 0 (len xs + k)` elements. -/
def pySliceTo {α : Type} (xs : List α) (k : Int) : List α :=
  if k < 0 then xs.take ((xs.length : Int) + k).toNat
  else xs.take k.toNat

/-- `num_specific = int(total_questions * Config.SPECIFIC_QUESTIONS_RATIO)`
with the ratio `0.6` (line 110).  Python's `int()` truncates the float
product toward zero; for every `|total_questions| < 2^50` the double
computation `int(total_questions * 0.6)` equals exact truncated division
of `3 * total_questions` by `5`, which is how it is modelled here. -/
def num_specific (total_questions : Int) : Int :=
  Int.tdiv (3 * total_questions) 5

/-- `num_general = total_questions - num_specific` (line 111). -/
def num_general (total_questions : Int) : Int :=
  total_questions - num_specific total_questions

/-- Models `QuestionManager.prepare_questions` (lines 102-119) after the two
in-place `random.shuffle` calls and before the final `random.shuffle`:
the argument lists are the already-shuffled pools (a permutation of what
`load_questions` returned) and the final shuffle is a permutation of this
function's result.  The selection itself is
`specific[:num_specific] + general[:num_general]`. -/
def prepare_questions (total_questions : Int)
    (specific_questions general_questions : List Question) : List Question :=
  pySliceTo specific_questions (num_specific total_questions) ++
  pySliceTo general_questions (num_general total_questions)

/-- Models `PerformanceEvaluator.evaluate_performance` (lines 325-340).
`percentage = (correct_answers / total_questions) * 100` is computed with
no guard: when `total_questions = 0` Python raises `ZeroDivisionError`,
modelled as `none`.  Otherwise the tier is chosen by
`percentage >= 70` / `elif percentage >= 50` / `else`. -/
def evaluate_performance (correct_answers total_questions : Nat) :
    Option (Rat × PerformanceLevel × String) :=
  if total_questions = 0 then none
  else
    let percentage : Rat := ((correct_answers : Rat) / (total_questions : Rat)) * 100
    if percentage ≥ EXCELLENT_THRESHOLD then
      some (percentage, PerformanceLevel.excellent, "🎉 Parabéns! Excelente desempenho!")
    else if percentage ≥ GOOD_THRESHOLD then
      some (percentage, PerformanceLevel.good, "👍 Bom trabalho! Continue estudando!")
    else
      some (percentage, PerformanceLevel.needs_improvement, "📚 Continue estudando para melhorar!")

/-- The mutable session state of `QuizApplication`: the selected question
list, `current_index`, `correct_answers`, `is_quiz_active`, and
`current_correct_answer` (set by `_show_question` to the current
question's `gabarito`; `None` before the first question is shown). -/
structure QuizState where
  questions : List Question
  current_index : Nat
  correct_answers : Nat
  is_quiz_active : Bool
  current_correct_answer : Option String
deriving DecidableEq, Repr

/-- Models `_finish_quiz` (lines 550-567) as far as session state goes: the
early return when the quiz is already inactive, then `is_quiz_active =
False`.  (It then calls `evaluate_performance` and shows the result
window, which does not change the session fields.) -/
def finish_quiz (s : QuizState) : QuizState :=
  if s.is_quiz_active = false then s
  else { s with is_quiz_active := false }

/-- Models `_show_question` (lines 494-519) as far as session state goes:
early return if inactive; `_finish_quiz` when `current_index >=
len(questions)`; otherwise it stores the current question's `gabarito`
in `current_correct_answer` (the label/button updates are GUI only). -/
def show_question (s : QuizState) : QuizState :=
  if s.is_quiz_active = false then s
  else if s.questions.length ≤ s.current_index then finish_quiz s
  else
    match s.questions.get? s.current_index with
    | some q => { s with current_correct_answer := some q.gabarito }
    | none => s

/-- Models `_next_question` (lines 542-548): early return if inactive,
otherwise `current_index += 1` followed by `_show_question`. -/
def next_question (s : QuizState) : QuizState :=
  if s.is_quiz_active = false then s
  else show_question { s with current_index := s.current_index + 1 }

/-- Models `_answer_question` (lines 521-540): early return if inactive;
`is_correct = answer == self.current_correct_answer` (plain `==` on
strings, so an exact case-sensitive comparison against the stored
optional label); tally increment when equal; then (after the modal result
dialog, GUI only) `_next_question`. -/
def answer_question (s : QuizState) (answer : String) : QuizState :=
  if s.is_quiz_active = false then s
  else
    let s1 := if some answer = s.current_correct_answer
      then { s with correct_answers := s.correct_answers + 1 }
      else s
    next_question s1

/-- A sample question whose correct label is lowercase `"a"`, as the rows of
`questoesEspecificas.db` store it. -/
def qA : Question :=
  ⟨1, 1, "Enunciado A", "alt a", "alt b", "alt c", "alt d", "Fonte A", "a"⟩

/-- A second sample question. -/
def qB : Question :=
  ⟨2, 2, "Enunciado B", "alt a", "alt b", "alt c", "alt d", "Fonte B", "b"⟩

/-- A third sample question. -/
def qC : Question :=
  ⟨3, 3, "Enunciado C", "alt a", "alt b", "alt c", "alt d", "Fonte C", "c"⟩

/-- A fourth sample question. -/
def qD : Question :=
  ⟨4, 4, "Enunciado D", "alt a", "alt b", "alt c", "alt d", "Fonte D", "d"⟩

/-- An active session showing question `qA` (correct label `"a"`) at
position 0 with no correct answers yet. -/
def sampleState : QuizState :=
  ⟨[qA, qB], 0, 0, true, some "a"⟩

/-- An inactive (finished) session. -/
def finishedState : QuizState :=
  ⟨[qA, qB], 2, 1, false, some "b"⟩

/-! ### Helper lemmas about the session state machine -/

theorem finish_quiz_current_index (s : QuizState) :
    (finish_quiz s).current_index = s.current_index := by
  unfold finish_quiz
  split <;> rfl

theorem finish_quiz_correct_answers (s : QuizState) :
    (finish_quiz s).correct_answers = s.correct_answers := by
  unfold finish_quiz
  split <;> rfl

theorem show_question_current_index (s : QuizState) :
    (show_question s).current_index = s.current_index := by
  unfold show_question
  split
  · rfl
  · split
    · exact finish_quiz_current_index s
    · rcases hq : s.questions.get? s.current_index with _ | q <;> simp [hq]

theorem show_question_correct_answers (s : QuizState) :
    (show_question s).correct_answers = s.correct_answers := by
  unfold show_question
  split
  · rfl
  · split
    · exact finish_quiz_correct_answers s
    · rcases hq : s.questions.get? s.current_index with _ | q <;> simp [hq]

theorem next_question_current_index (s : QuizState) (h : s.is_quiz_active = true) :
    (next_question s).current_index = s.current_index + 1 := by
  unfold next_question
  rw [h]
  simp [show_question_current_index]

theorem next_question_correct_answers (s : QuizState) :
    (next_question s).correct_answers = s.correct_answers := by
  unfold next_question
  split
  · rfl
  · exact show_question_correct_answers { s with current_index := s.current_index + 1 }

/-! ### Helper lemmas about slicing and the question split -/

theorem pySliceTo_length_nonneg {α : Type} (xs : List α) (k : Int) (hk : 0 ≤ k) :
    (pySliceTo xs k).length = min k.toNat xs.length := by
  unfold pySliceTo
  rw [if_neg (not_lt.mpr hk)]
  exact List.length_take _ _

theorem pySliceTo_length_neg {α : Type} (xs : List α) (k : Int) (hk : k < 0) :
    (pySliceTo xs k).length = ((xs.length : Int) + k).toNat := by
  unfold pySliceTo
  rw [if_pos hk, List.length_take]
  omega

theorem pySliceTo_sublist {α : Type} (xs : List α) (k : Int) :
    (pySliceTo xs k).Sublist xs := by
  unfold pySliceTo
  split
  · exact List.take_sublist _ _
  · exact List.take_sublist _ _

theorem num_specific_ofNat (t : Nat) :
    num_specific (t : Int) = ((3 * t / 5 : Nat) : Int) := by
  unfold num_specific
  have h : ((3 : Int) * (t : Int)) = ((3 * t : Nat) : Int) := by push_cast; ring
  rw [h]
  exact_mod_cast (Int.ofNat_tdiv (3 * t) 5).symm

theorem num_general_ofNat (t : Nat) :
    num_general (t : Int) = ((t - 3 * t / 5 : Nat) : Int) := by
  unfold num_general
  rw [num_specific_ofNat]
  omega

theorem evaluate_performance_eq (c t : Nat) (ht : t ≠ 0) :
    evaluate_performance c t =
      (if (c : Rat) / (t : Rat) * 100 ≥ EXCELLENT_THRESHOLD then
        some ((c : Rat) / (t : Rat) * 100, PerformanceLevel.excellent,
          "🎉 Parabéns! Excelente desempenho!")
      else if (c : Rat) / (t : Rat) * 100 ≥ GOOD_THRESHOLD then
        some ((c : Rat) / (t : Rat) * 100, PerformanceLevel.good,
          "👍 Bom trabalho! Continue estudando!")
      else
        some ((c : Rat) / (t : Rat) * 100, PerformanceLevel.needs_improvement,
          "📚 Continue estudando para melhorar!")) := by
  unfold evaluate_performance
  rw [if_neg ht]

/-! ### Claim theorems -/

/-- C2 (code bug): `evaluate_performance` contains no guard for
`total_questions = 0`; at the failing input `correct_answers = 0`,
`total_questions = 0` (a zero-length selected sequence, as when both
pools are empty) the Python code raises `ZeroDivisionError` — modelled
here as `none` — instead of returning the defined fallback (percentage 0,
lowest tier) that the claim requires. -/
theorem evaluate_performance_zero_total_raises :
    evaluate_performance 0 0 = none := rfl

/-- C4 counterexample: the claim says the submitted label is compared
case-insensitively, so submitting `"A"` against the stored correct label
`"a"` should count as correct and increment the tally; in the code the
comparison is the plain `==` of line 526, so on a state whose correct
label is `"a"` and whose tally is 0, submitting `"A"` — equal to `"a"`
under lowercasing — leaves the tally at 0. -/
theorem answer_question_case_sensitive_cex :
    "A".data.map Char.toLower = "a".data.map Char.toLower ∧
    sampleState.is_quiz_active = true ∧
    sampleState.current_correct_answer = some "a" ∧
    sampleState.correct_answers = 0 ∧
    (answer_question sampleState "A").correct_answers = 0 :=
  ⟨by decide, rfl, rfl, rfl, rfl⟩

/-- C4 (amended): for every active session, `_answer_question` compares the
submitted label to the stored current correct label by exact,
case-sensitive string equality, and increments the correct-answer tally
exactly when they are equal under that exact comparison. -/
theorem answer_question_tally (s : QuizState) (a : String)
    (h : s.is_quiz_active = true) :
    (answer_question s a).correct_answers =
      if some a = s.current_correct_answer then s.correct_answers + 1
      else s.correct_answers := by
  unfold answer_question
  rw [h]
  by_cases hc : some a = s.current_correct_answer <;>
    simp [hc, next_question_correct_answers]

/-- Witness for the amended C4 at a concrete active state. -/
theorem answer_question_tally_witness :
    sampleState.is_quiz_active = true ∧
      (answer_question sampleState "a").correct_answers =
        (if some "a" = sampleState.current_correct_answer then
          sampleState.correct_answers + 1
        else sampleState.correct_answers) :=
  ⟨rfl, answer_question_tally sampleState "a" rfl⟩

/-- C5 counterexample: the claim says `submit` leaves the position
unchanged, but `_answer_question` ends by calling `_next_question`
(line 540): on an active state at position 0, answering moves the
position to 1. -/
theorem answer_question_advances_cex :
    sampleState.is_quiz_active = true ∧
    sampleState.current_index = 0 ∧
    (answer_question sampleState "b").current_index = 1 :=
  ⟨rfl, rfl, rfl⟩

/-- C5 (amended): `_answer_question` on an active session always increments
the position by exactly one — evaluation, tally and advancement are fused
into the single answer operation (advancing is not a separate user-level
step); the position is left unchanged only when the session is inactive. -/
theorem answer_question_position (s : QuizState) (a : String)
    (h : s.is_quiz_active = true) :
    (answer_question s a).current_index = s.current_index + 1 := by
  unfold answer_question
  rw [h]
  simp only [Bool.true_eq_false, if_false]
  by_cases hc : some a = s.current_correct_answer
  · rw [if_pos hc]
    exact next_question_current_index _ rfl
  · rw [if_neg hc]
    exact next_question_current_index s h

/-- Witness for the amended C5 at a concrete active state. -/
theorem answer_question_position_witness :
    sampleState.is_quiz_active = true ∧
      (answer_question sampleState "a").current_index = sampleState.current_index + 1 :=
  ⟨rfl, answer_question_position sampleState "a" rfl⟩

/-- C6: on an inactive (finished) session both `_answer_question` and
`_next_question` take the `if not self.is_quiz_active: return` early
exit: they raise no error and return the state unchanged, so in
particular `correct_answers` and `current_index` are untouched. -/
theorem finished_session_noop (s : QuizState) (a : String)
    (h : s.is_quiz_active = false) :
    answer_question s a = s ∧ next_question s = s := by
  constructor <;> simp [answer_question, next_question, h]

/-- Witness for C6 at a concrete finished state. -/
theorem finished_session_noop_witness :
    finishedState.is_quiz_active = false ∧
      (answer_question finishedState "a" = finishedState ∧
       next_question finishedState = finishedState) :=
  ⟨rfl, finished_session_noop finishedState "a" rfl⟩

/-- C7: whenever the sqlite3 interaction fails (either `connect` itself or
the query after it — the `except sqlite3.Error` branch of lines 91-93),
`load_questions` returns the empty list instead of propagating the
exception; the failure is surfaced only through the GUI `showerror`
notice, and the caller receives an ordinary (empty) pool. -/
theorem load_questions_error_empty (msg : String) :
    load_questions (DbOutcome.connect_failed msg) = [] ∧
    load_questions (DbOutcome.query_failed msg) = [] :=
  ⟨rfl, rfl⟩

/-- C8 counterexample: when the query fails after a successful
`sqlite3.connect`, control jumps from line 82-87 to the `except` branch
and the `conn.close()` of line 88 is skipped — there is no `finally` —
so the connection was opened but is not closed when the call returns. -/
theorem load_questions_leak_cex :
    (load_questions_trace (DbOutcome.query_failed "disk I/O error")).connection_opened = true ∧
    (load_questions_trace (DbOutcome.query_failed "disk I/O error")).connection_closed = false :=
  ⟨rfl, rfl⟩

/-- C8 (amended): `load_questions` explicitly closes the connection it
opened only on the success exit path; on a query failure after the
connection was opened, the `except` branch returns `[]` without closing
it. (`conn.close()` runs exactly when the query succeeds.) -/
theorem load_questions_close_iff (o : DbOutcome) :
    (load_questions_trace o).connection_closed = true ↔
      ∃ rows, o = DbOutcome.success rows := by
  cases o <;> simp [load_questions_trace]

/-- C3: for every correct count `c` and total `t > 0`,
`evaluate_performance` returns `percentage = c / t * 100` (the double
arithmetic of the source modelled by exact rationals) and classifies:
`percentage ≥ 70` gives `excellent`, `50 ≤ percentage < 70` gives `good`,
`percentage < 50` gives `needs_improvement`; in particular with `t = 10`,
`c = 7` gives `70` and `excellent`, `c = 5` gives `50` and `good`, and
`c = 4` gives `40` and `needs_improvement`. -/
theorem evaluate_performance_classification :
    (∀ c t : Nat, 0 < t → ∃ level message,
      evaluate_performance c t = some ((c : Rat) / (t : Rat) * 100, level, message) ∧
      ((70 : Rat) ≤ (c : Rat) / (t : Rat) * 100 → level = PerformanceLevel.excellent) ∧
      ((50 : Rat ) ≤ (c : Rat) / (t : Rat) * 100 ∧ (c : Rat) / (t : Rat) * 100 < 70 →
        level = PerformanceLevel.good) ∧
      ((c : Rat) / (t : Rat) * 100 < 50 → level = PerformanceLevel.needs_improvement)) ∧
    evaluate_performance 7 10
      = some (70, PerformanceLevel.excellent, "🎉 Parabéns! Excelente desempenho!") ∧
    evaluate_performance 5 10
      = some (50, PerformanceLevel.good, "👍 Bom trabalho! Continue estudando!") ∧
    evaluate_performance 4 10
      = some (40, PerformanceLevel.needs_improvement, "📚 Continue estudando para melhorar!") := by
  have e70 : EXCELLENT_THRESHOLD = (70 : Rat) := rfl
  have e50 : GOOD_THRESHOLD = (50 : Rat) := rfl
  refine ⟨?_, ?_, ?_, ?_⟩
  · intro c t ht
    rw [evaluate_performance_eq c t ht.ne', e70, e50]
    split_ifs with h1 h2
    · exact ⟨PerformanceLevel.excellent, _, rfl, fun _ => rfl,
        fun hx => absurd hx.2 (not_lt.mpr h1),
        fun hx => absurd hx (not_lt.mpr (le_trans (by norm_num) h1))⟩
    · exact ⟨PerformanceLevel.good, _, rfl, fun hx => absurd hx h1,
        fun _ => rfl, fun hx => absurd hx (not_lt.mpr h2)⟩
    · exact ⟨PerformanceLevel.needs_improvement, _, rfl, fun hx => absurd hx h1,
        fun hx => absurd hx.1 h2, fun _ => rfl⟩
  · rw [evaluate_performance_eq 7 10 (by norm_num), e70,
      show ((7 : Nat) : Rat) / ((10 : Nat) : Rat) * 100 = 70 by norm_num,
      if_pos (le_refl (70 : Rat))]
  · rw [evaluate_performance_eq 5 10 (by norm_num), e70, e50,
      show ((5 : Nat) : Rat) / ((10 : Nat) : Rat) * 100 = 50 by norm_num,
      if_neg (by norm_num : ¬ (50 : Rat) ≥ 70), if_pos (le_refl (50 : Rat))]
  · rw [evaluate_performance_eq 4 10 (by norm_num), e70, e50,
      show ((4 : Nat) : Rat) / ((10 : Nat) : Rat) * 100 = 40 by norm_num,
      if_neg (by norm_num : ¬ (40 : Rat) ≥ 70), if_neg (by norm_num : ¬ (40 : Rat) ≥ 50)]

/-- Witness: the general classification clause of C3 applied at the
concrete input `c = 7`, `t = 10`. -/
theorem evaluate_performance_classification_witness :
    0 < 10 ∧ (∃ level message,
      evaluate_performance 7 10
        = some (((7 : Nat) : Rat) / ((10 : Nat) : Rat) * 100, level, message) ∧
      ((70 : Rat) ≤ ((7 : Nat) : Rat) / ((10 : Nat) : Rat) * 100 →
        level = PerformanceLevel.excellent) ∧
      ((50 : Rat) ≤ ((7 : Nat) : Rat) / ((10 : Nat) : Rat) * 100 ∧
        ((7 : Nat) : Rat) / ((10 : Nat) : Rat) * 100 < 70 →
        level = PerformanceLevel.good) ∧
      (((7 : Nat) : Rat) / ((10 : Nat) : Rat) * 100 < 50 →
        level = PerformanceLevel.needs_improvement)) :=
  ⟨by norm_num, evaluate_performance_classification.1 7 10 (by norm_num)⟩

/-- C1: for every requested total `N > 0` and pools of sizes `S` and `G`
(the shuffled lists handed to the slicing step being permutations of the
loaded pools, and the returned sequence being a permutation — the final
shuffle — of the concatenation of the two slices), `prepare_questions`
takes exactly `min ⌊0.6N⌋ S` questions from the specific pool and exactly
`min (N − ⌊0.6N⌋) G` from the general pool; the selected sequence has
length ≤ N, with equality when `S ≥ ⌊0.6N⌋` and `G ≥ N − ⌊0.6N⌋`.  The
function is total, so an undersized pool truncates silently and no error
is raised. -/
theorem prepare_questions_counts (total : Int)
    (specific_pool general_pool specific_shuffled general_shuffled selected : List Question)
    (hS : specific_shuffled.Perm specific_pool)
    (hG : general_shuffled.Perm general_pool)
    (hsel : selected.Perm (prepare_questions total specific_shuffled general_shuffled))
    (hpos : 0 < total) :
    (num_specific total).toNat = 3 * total.toNat / 5 ∧
    (num_general total).toNat = total.toNat - 3 * total.toNat / 5 ∧
    (pySliceTo specific_shuffled (num_specific total)).length
      = min (num_specific total).toNat specific_pool.length ∧
    (pySliceTo general_shuffled (num_general total)).length
      = min (num_general total).toNat general_pool.length ∧
    selected.length ≤ total.toNat ∧
    ((num_specific total).toNat ≤ specific_pool.length ∧
      (num_general total).toNat ≤ general_pool.length →
      selected.length = total.toNat) := by
  obtain ⟨t, rfl⟩ : ∃ t : Nat, total = (t : Int) :=
    ⟨total.toNat, (Int.toNat_of_nonneg hpos.le).symm⟩
  have hns := num_specific_ofNat t
  have hng := num_general_ofNat t
  have htn : ((t : Int)).toNat = t := by omega
  have h1 : (num_specific (t : Int)).toNat = 3 * t / 5 := by rw [hns]; omega
  have h2 : (num_general (t : Int)).toNat = t - 3 * t / 5 := by rw [hng]; omega
  have hlenS : (pySliceTo specific_shuffled (num_specific (t : Int))).length
      = min (num_specific (t : Int)).toNat specific_pool.length := by
    rw [pySliceTo_length_nonneg _ _ (by rw [hns]; omega), hS.length_eq]
  have hlenG : (pySliceTo general_shuffled (num_general (t : Int))).length
      = min (num_general (t : Int)).toNat general_pool.length := by
    rw [pySliceTo_length_nonneg _ _ (by rw [hng]; omega), hG.length_eq]
  have hsel_len : selected.length =
      min (num_specific (t : Int)).toNat specific_pool.length +
      min (num_general (t : Int)).toNat general_pool.length := by
    rw [hsel.length_eq]
    unfold prepare_questions
    rw [List.length_append, hlenS, hlenG]
  refine ⟨by rw [h1, htn], by rw [h2, htn], hlenS, hlenG, ?_, ?_⟩
  · omega
  · intro hboth
    omega

/-- Witness for C1 at `N = 3` with a specific pool of size 2 and a general
pool of size 2 (both large enough, so the selection has full length 3). -/
theorem prepare_questions_counts_witness :
    (([qA, qB] : List Question).Perm [qA, qB] ∧
     ([qC, qD] : List Question).Perm [qC, qD] ∧
     (prepare_questions 3 [qA, qB] [qC, qD]).Perm (prepare_questions 3 [qA, qB] [qC, qD]) ∧
     (0 : Int) < 3) ∧
    ((num_specific 3).toNat = 3 * (3 : Int).toNat / 5 ∧
     (num_general 3).toNat = (3 : Int).toNat - 3 * (3 : Int).toNat / 5 ∧
     (pySliceTo [qA, qB] (num_specific 3)).length
       = min (num_specific 3).toNat ([qA, qB] : List Question).length ∧
     (pySliceTo [qC, qD] (num_general 3)).length
       = min (num_general 3).toNat ([qC, qD] : List Question).length ∧
     (prepare_questions 3 [qA, qB] [qC, qD]).length ≤ (3 : Int).toNat ∧
     ((num_specific 3).toNat ≤ ([qA, qB] : List Question).length ∧
      (num_general 3).toNat ≤ ([qC, qD] : List Question).length →
      (prepare_questions 3 [qA, qB] [qC, qD]).length = (3 : Int).toNat)) :=
  ⟨⟨List.Perm.refl _, List.Perm.refl _, List.Perm.refl _, by norm_num⟩,
   prepare_questions_counts 3 [qA, qB] [qC, qD] [qA, qB] [qC, qD]
     (prepare_questions 3 [qA, qB] [qC, qD])
     (List.Perm.refl _) (List.Perm.refl _) (List.Perm.refl _) (by norm_num)⟩

/-- C9: every question in the selected sequence originates from one of the
two source pools — the selected sequence (any permutation of the two
slices of any permutations of the pools) is a sub-multiset of the
concatenation of the two pools: no question occurs more often than in
the pools, and no fabricated record appears. -/
theorem prepare_questions_provenance (total : Int)
    (specific_pool general_pool specific_shuffled general_shuffled selected : List Question)
    (q : Question)
    (hS : specific_shuffled.Perm specific_pool)
    (hG : general_shuffled.Perm general_pool)
    (hsel : selected.Perm (prepare_questions total specific_shuffled general_shuffled)) :
    selected.count q ≤ (specific_pool ++ general_pool).count q ∧
    selected ⊆ specific_pool ++ general_pool := by
  constructor
  · calc selected.count q
        = (prepare_questions total specific_shuffled general_shuffled).count q :=
          hsel.count_eq q
      _ = (pySliceTo specific_shuffled (num_specific total)).count q +
          (pySliceTo general_shuffled (num_general total)).count q :=
          List.count_append q _ _
      _ ≤ specific_shuffled.count q + general_shuffled.count q :=
          Nat.add_le_add ((pySliceTo_sublist _ _).count_le q)
            ((pySliceTo_sublist _ _).count_le q)
      _ = specific_pool.count q + general_pool.count q := by
          rw [hS.count_eq q, hG.count_eq q]
      _ = (specific_pool ++ general_pool).count q := (List.count_append q _ _).symm
  · intro x hx
    have hx1 : x ∈ prepare_questions total specific_shuffled general_shuffled :=
      hsel.subset hx
    unfold prepare_questions at hx1
    rcases List.mem_append.mp hx1 with h | h
    · exact List.mem_append.mpr (Or.inl (hS.subset ((pySliceTo_sublist _ _).subset h)))
    · exact List.mem_append.mpr (Or.inr (hG.subset ((pySliceTo_sublist _ _).subset h)))

/-- Witness for C9 at a concrete input: `N = 10`, pools `[qA]` and `[qB]`,
with the identity shuffles and the identity final shuffle. -/
theorem prepare_questions_provenance_witness :
    (([qA] : List Question).Perm [qA] ∧ ([qB] : List Question).Perm [qB] ∧
     (prepare_questions 10 [qA] [qB]).Perm (prepare_questions 10 [qA] [qB])) ∧
    ((prepare_questions 10 [qA] [qB]).count qA ≤ ([qA] ++ [qB] : List Question).count qA ∧
     prepare_questions 10 [qA] [qB] ⊆ ([qA] ++ [qB] : List Question)) :=
  ⟨⟨List.Perm.refl _, List.Perm.refl _, List.Perm.refl _⟩,
   prepare_questions_provenance 10 [qA] [qB] [qA] [qB]
     (prepare_questions 10 [qA] [qB]) qA
     (List.Perm.refl _) (List.Perm.refl _) (List.Perm.refl _)⟩

/-- C10: `prepare_questions` performs no validation of `total_questions`.
For `total_questions = -1`, `int(-1 * 0.6) = 0` (truncation toward zero),
so `num_specific = 0` and `num_general = -1`; the specific slice is empty
and the general slice `general[:-1]` drops exactly the last element of
the (shuffled) general pool, so for a general pool of size `G ≥ 2` the
returned sequence has exactly `G - 1` questions, all drawn from the
general pool — no empty result and no error. -/
theorem prepare_questions_negative_total
    (specific_shuffled general_pool general_shuffled selected : List Question)
    (hG : general_shuffled.Perm general_pool)
    (hsel : selected.Perm (prepare_questions (-1) specific_shuffled general_shuffled))
    (hlen : 2 ≤ general_pool.length) :
    num_specific (-1) = 0 ∧
    num_general (-1) = -1 ∧
    pySliceTo specific_shuffled (num_specific (-1)) = [] ∧
    selected.length = general_pool.length - 1 ∧
    selected ⊆ general_pool := by
  have h0 : num_specific (-1) = 0 := by decide
  have h1 : num_general (-1) = -1 := by decide
  have hempty : pySliceTo specific_shuffled (num_specific (-1)) = ([] : List Question) := by
    rw [h0]; simp [pySliceTo]
  have hlenG : (pySliceTo general_shuffled (num_general (-1))).length
      = ((general_shuffled.length : Int) + (-1)).toNat := by
    rw [h1]; exact pySliceTo_length_neg _ _ (by decide)
  have hGlen : general_shuffled.length = general_pool.length := hG.length_eq
  refine ⟨h0, h1, hempty, ?_, ?_⟩
  · rw [hsel.length_eq]
    unfold prepare_questions
    rw [hempty, List.nil_append, hlenG]
    omega
  · intro x hx
    have hx1 : x ∈ prepare_questions (-1) specific_shuffled general_shuffled :=
      hsel.subset hx
    unfold prepare_questions at hx1
    rcases List.mem_append.mp hx1 with h | h
    · rw [hempty] at h
      exact absurd h (List.not_mem_nil x)
    · exact hG.subset ((pySliceTo_sublist _ _).subset h)

/-- Witness for C10 at a concrete input: specific pool `[qA]`, general pool
`[qC, qD]` of size 2, identity shuffles; the result has `2 - 1 = 1`
question, drawn from the general pool. -/
theorem prepare_questions_negative_total_witness :
    (([qC, qD] : List Question).Perm [qC, qD] ∧
     (prepare_questions (-1) [qA] [qC, qD]).Perm (prepare_questions (-1) [qA] [qC, qD]) ∧
     2 ≤ ([qC, qD] : List Question).length) ∧
    (num_specific (-1) = 0 ∧
     num_general (-1) = -1 ∧
     pySliceTo [qA] (num_specific (-1)) = [] ∧
     (prepare_questions (-1) [qA] [qC, qD]).length = ([qC, qD] : List Question).length - 1 ∧
     prepare_questions (-1) [qA] [qC, qD] ⊆ [qC, qD]) :=
  ⟨⟨List.Perm.refl _, List.Perm.refl _, by decide⟩,
   prepare_questions_negative_total [qA] [qC, qD] [qC, qD]
     (prepare_questions (-1) [qA] [qC, qD])
     (List.Perm.refl _) (List.Perm.refl _) (by decide)⟩

end QuizTGE
